import Mathlib

/-!
Verification development for the go-fiber tutorial repository.

The repository registers HTTP route handlers on a Fiber application and
asserts on the responses. We shallowly embed the request/response data
model, the handlers (transliterated from the Go source), and — where the
behaviour is provided by the external framework rather than by code in
this repository — the framework semantics the spec describes (query
defaults, cookie/header echo, form/JSON binding, error-to-status mapping,
route grouping, middleware chaining).
-/

namespace GoFiber

/-- An HTTP response: status code and body. -/
structure Response where
  status : Nat
  body : String
deriving DecidableEq, Repr

/-- The request context visible to a handler: query parameters, request
headers, cookies, matched route parameters, raw body and content type. -/
structure Ctx where
  queryParams : List (String × String)
  headers : List (String × String)
  cookies : List (String × String)
  params : List (String × String)
  body : String
  contentType : String
deriving DecidableEq, Repr

/-- Modelled from the spec: Fiber's `c.Query(key, default)` — the query
parameter value, or the default when the parameter is absent. -/
def Ctx.query (c : Ctx) (key dflt : String) : String :=
  match List.lookup key c.queryParams with
  | some v => v
  | none => dflt

/-- Modelled from the spec: Fiber's `c.Get(key)` — the request header
value, or the empty string when absent. -/
def Ctx.getHeader (c : Ctx) (key : String) : String :=
  match List.lookup key c.headers with
  | some v => v
  | none => ""

/-- Modelled from the spec: Fiber's `c.Cookies(key)` — the cookie value,
or the empty string when absent. -/
def Ctx.cookie (c : Ctx) (key : String) : String :=
  match List.lookup key c.cookies with
  | some v => v
  | none => ""

/-- Modelled from the spec: Fiber's `c.Params(key)` — the matched route
parameter value, or the empty string when absent. -/
def Ctx.param (c : Ctx) (key : String) : String :=
  match List.lookup key c.params with
  | some v => v
  | none => ""

/-- A handler result: either a response or an error (its message), as a
Go handler returns `error` with the written response on `nil`. -/
abbrev HandlerResult := Except String Response

/-- The error handler configured in `fiber.Config` of the test file:
status 500 and body `"Error : "` followed by the error message. -/
def errorHandler (msg : String) : Response :=
  ⟨500, "Error : " ++ msg⟩

/-- Modelled from the spec: the framework runs the matched handler and,
when it returns an error, lets the configured error handler produce the
response (error-to-status mapping). -/
def runRoute (h : Ctx → HandlerResult) (c : Ctx) : Response :=
  match h c with
  | .ok r => r
  | .error e => errorHandler e

/-- The `GET /err` handler: returns the error `"duar"`. -/
def errHandler : Ctx → HandlerResult :=
  fun _ => .error "duar"

/-- The `GET /hello` handler: greets the `name` query parameter,
defaulting to `"Guest"`. -/
def helloHandler (c : Ctx) : HandlerResult :=
  .ok ⟨200, "Hello " ++ c.query "name" "Guest"⟩

/-- The `GET /req` handler: echoes the `firstname` header and the
`lastname` cookie. -/
def reqHandler (c : Ctx) : HandlerResult :=
  .ok ⟨200, "Hello " ++ c.getHeader "firstname" ++ " " ++ c.cookie "lastname"⟩

/-- The `GET /users/:userId/orders/:orderId` handler. -/
def ordersHandler (c : Ctx) : HandlerResult :=
  .ok ⟨200, "Order " ++ c.param "orderId" ++ " from " ++ c.param "userId"⟩

/-- A route-pattern segment: a literal segment, or a `:name` parameter. -/
inductive Seg where
  | lit (s : String)
  | param (name : String)
deriving DecidableEq, Repr

/-- Splits characters on `/`, dropping empty segments (`acc` holds the
current segment's characters in reverse). -/
def splitPathAux : List Char → List Char → List String
  | [], acc => if acc = [] then [] else [String.mk acc.reverse]
  | ch :: cs, acc =>
    if ch = '/' then
      if acc = [] then splitPathAux cs []
      else String.mk acc.reverse :: splitPathAux cs []
    else splitPathAux cs (ch :: acc)

/-- Path segmentation: split on `/` and drop empty segments. -/
def splitPath (s : String) : List String :=
  splitPathAux s.toList []

/-- Reads a pattern segment: a leading `:` marks a parameter. -/
def parseSeg (s : String) : Seg :=
  match s.toList with
  | ':' :: rest => .param (String.mk rest)
  | _ => .lit s

/-- The pattern segments of the route `/users/:userId/orders/:orderId`. -/
def ordersPattern : List Seg :=
  (splitPath "/users/:userId/orders/:orderId").map parseSeg

/-- Modelled from the spec: route-pattern matching — a `:name` pattern
segment captures any single non-empty path segment, a literal segment
must match exactly. -/
def matchSegs : List Seg → List String → Option (List (String × String))
  | [], [] => some []
  | .lit l :: ps, s :: ss =>
    if l = s then matchSegs ps ss else none
  | .param n :: ps, s :: ss =>
    if s = "" then none
    else
      match matchSegs ps ss with
      | some m => some ((n, s) :: m)
      | none => none
  | _, _ => none

/-- The server configuration built in `main`: timeouts in seconds and the
prefork flag, as in `fiber.Config`. -/
structure FiberConfig where
  idleTimeout : Nat
  writeTimeout : Nat
  readTimeout : Nat
  prefork : Bool
deriving DecidableEq, Repr

/-- The configuration `main` passes to `fiber.New`: all three timeouts
are 5 seconds and prefork is enabled. -/
def mainConfig : FiberConfig :=
  { idleTimeout := 5, writeTimeout := 5, readTimeout := 5, prefork := true }

/-- An observable startup action of `main`: printing a line or starting
to listen on an address. -/
inductive StartupEvent where
  | println (s : String)
  | listen (addr : String)
deriving DecidableEq, Repr

/-- The line `main` prints at startup, depending on whether the process
is a prefork child. -/
def startupMessage (isChild : Bool) : String :=
  if isChild then "This is child process" else "This is parent process"

/-- The ordered observable startup actions of `main`: print the role
message, then listen on `localhost:3000`. -/
def mainStartup (isChild : Bool) : List StartupEvent :=
  [.println (startupMessage isChild), .listen "localhost:3000"]

/-- The value of a hexadecimal digit character, if it is one. -/
def hexVal (c : Char) : Option Nat :=
  if '0' ≤ c ∧ c ≤ '9' then some (c.toNat - 48)
  else if 'a' ≤ c ∧ c ≤ 'f' then some (c.toNat - 87)
  else if 'A' ≤ c ∧ c ≤ 'F' then some (c.toNat - 55)
  else none

/-- The character denoted by a single-character JSON escape. -/
def escChar (c : Char) : Option Char :=
  if c = '"' then some '"'
  else if c = '\\' then some '\\'
  else if c = '/' then some '/'
  else if c = 'n' then some '\n'
  else if c = 't' then some '\t'
  else if c = 'r' then some '\r'
  else if c = 'b' then some (Char.ofNat 8)
  else if c = 'f' then some (Char.ofNat 12)
  else none

/-- Drops leading JSON whitespace. -/
def skipWs : List Char → List Char
  | c :: cs =>
    if c = ' ' ∨ c = '\t' ∨ c = '\n' ∨ c = '\r' then skipWs cs else c :: cs
  | [] => []

/-- Reads the remainder of a JSON string (the opening quote already
consumed), handling escapes; returns the content and the rest. -/
def parseJStr : Nat → List Char → Option (List Char × List Char)
  | 0, _ => none
  | _, [] => none
  | fuel + 1, c :: cs =>
    if c = '"' then some ([], cs)
    else if c = '\\' then
      match cs with
      | 'u' :: a :: b :: d :: e :: cs2 =>
        match hexVal a, hexVal b, hexVal d, hexVal e with
        | some ha, some hb, some hd, some he =>
          match parseJStr fuel cs2 with
          | some (s, rest) =>
            some (Char.ofNat (((ha * 16 + hb) * 16 + hd) * 16 + he) :: s, rest)
          | none => none
        | _, _, _, _ => none
      | e :: cs2 =>
        match escChar e with
        | some ec =>
          match parseJStr fuel cs2 with
          | some (s, rest) => some (ec :: s, rest)
          | none => none
        | none => none
      | [] => none
    else
      match parseJStr fuel cs with
      | some (s, rest) => some (c :: s, rest)
      | none => none

/-- Reads one `"key" : "value"` member of a flat JSON object; returns the
pair and the rest. -/
def parsePair (fuel : Nat) (input : List Char) :
    Option ((String × String) × List Char) :=
  match skipWs input with
  | '"' :: rest =>
    match parseJStr fuel rest with
    | some (key, rest2) =>
      match skipWs rest2 with
      | ':' :: rest3 =>
        match skipWs rest3 with
        | '"' :: rest4 =>
          match parseJStr fuel rest4 with
          | some (val, rest5) => some ((String.mk key, String.mk val), rest5)
          | none => none
        | _ => none
      | _ => none
    | none => none
  | _ => none

/-- Reads a non-empty comma-separated member list followed by the closing
brace of a flat JSON object. -/
def parseMembers : Nat → List Char → Option (List (String × String) × List Char)
  | 0, _ => none
  | fuel + 1, input =>
    match parsePair fuel input with
    | none => none
    | some (kv, rest) =>
      match skipWs rest with
      | ',' :: rest2 =>
        match parseMembers fuel rest2 with
        | some (kvs, rest3) => some (kv :: kvs, rest3)
        | none => none
      | '}' :: rest2 => some ([kv], rest2)
      | _ => none

/-- Modelled from the spec: JSON deserialization of a flat object with
string-valued fields into key/value pairs (the framework and standard
library provide the real decoder). Returns `none` when the body is not
such a JSON object. -/
def jsonFlatObject (s : String) : Option (List (String × String)) :=
  match skipWs s.toList with
  | '{' :: rest =>
    match skipWs rest with
    | '}' :: rest2 => if skipWs rest2 = [] then some [] else none
    | _ =>
      match parseMembers (2 * s.length + 2) rest with
      | some (kvs, rest2) => if skipWs rest2 = [] then some kvs else none
      | none => none
  | _ => none

/-- Percent-decodes a form-urlencoded token (`+` is a space, `%XY` a
byte). -/
def percentDecode : Nat → List Char → Option (List Char)
  | 0, _ => none
  | _, [] => some []
  | fuel + 1, c :: cs =>
    if c = '+' then (percentDecode fuel cs).map (fun t => ' ' :: t)
    else if c = '%' then
      match cs with
      | a :: b :: cs2 =>
        match hexVal a, hexVal b with
        | some ha, some hb =>
          (percentDecode fuel cs2).map (fun t => Char.ofNat (ha * 16 + hb) :: t)
        | _, _ => none
      | _ => none
    else (percentDecode fuel cs).map (fun t => c :: t)

/-- Splits characters on a separator (`acc` holds the current chunk in
reverse). -/
def splitOnChar (sep : Char) : List Char → List Char → List (List Char)
  | [], acc => [acc.reverse]
  | c :: cs, acc =>
    if c = sep then acc.reverse :: splitOnChar sep cs []
    else splitOnChar sep cs (c :: acc)

/-- Splits a form pair at its first `=`; a pair without `=` has an empty
value. -/
def splitEq : List Char → List Char × List Char
  | [] => ([], [])
  | c :: rest =>
    if c = '=' then ([], rest)
    else
      match splitEq rest with
      | (k, v) => (c :: k, v)

/-- Decodes one `key=value` form pair. -/
def formPairDecode (cs : List Char) : Option (String × String) :=
  match splitEq cs with
  | (k, v) =>
    match percentDecode (k.length + 1) k, percentDecode (v.length + 1) v with
    | some kd, some vd => some (String.mk kd, String.mk vd)
    | _, _ => none

/-- Modelled from the spec: `application/x-www-form-urlencoded` decoding
of a request body into key/value pairs (the framework and standard
library provide the real decoder). -/
def formDecode (s : String) : Option (List (String × String)) :=
  (((splitOnChar '&' s.toList []).filter (fun p => p ≠ [])).mapM formPairDecode)

/-- The login credential pair bound by the `POST /login` handler. -/
structure LoginReq where
  username : String
  password : String
deriving DecidableEq, Repr

/-- The registration triple bound by the `POST /register` handler. -/
structure RegisterReq where
  username : String
  password : String
  name : String
deriving DecidableEq, Repr

/-- Binds one decoded key/value pair into a `LoginReq` field (later
occurrences overwrite earlier ones, unknown keys are ignored). -/
def applyLoginField (r : LoginReq) (kv : String × String) : LoginReq :=
  if kv.1 = "username" then { r with username := kv.2 }
  else if kv.1 = "password" then { r with password := kv.2 }
  else r

/-- Builds a `LoginReq` from decoded pairs, missing fields staying empty. -/
def loginFromPairs (kvs : List (String × String)) : LoginReq :=
  kvs.foldl applyLoginField ⟨"", ""⟩

/-- JSON deserialization of a request body into a `LoginReq`. -/
def jsonDecodeLogin (s : String) : Option LoginReq :=
  (jsonFlatObject s).map loginFromPairs

/-- The `POST /login` handler: unmarshals the raw body as JSON into a
`LoginReq` and greets the username; a decode failure is returned as an
error (its message is modelled, the standard library chooses the text). -/
def loginHandler (c : Ctx) : HandlerResult :=
  match jsonDecodeLogin c.body with
  | some req => .ok ⟨200, "Hi " ++ req.username⟩
  | none => .error "json unmarshal failed"

/-- Binds one decoded key/value pair into a `RegisterReq` field (later
occurrences overwrite earlier ones, unknown keys are ignored). -/
def applyRegisterField (r : RegisterReq) (kv : String × String) : RegisterReq :=
  if kv.1 = "username" then { r with username := kv.2 }
  else if kv.1 = "password" then { r with password := kv.2 }
  else if kv.1 = "name" then { r with name := kv.2 }
  else r

/-- Builds a `RegisterReq` from decoded pairs, missing fields staying
empty. -/
def registerFromPairs (kvs : List (String × String)) : RegisterReq :=
  kvs.foldl applyRegisterField ⟨"", "", ""⟩

/-- JSON deserialization of a request body into a `RegisterReq`. -/
def jsonDecodeRegister (s : String) : Option RegisterReq :=
  (jsonFlatObject s).map registerFromPairs

/-- Form deserialization of a request body into a `RegisterReq`. -/
def formDecodeRegister (s : String) : Option RegisterReq :=
  (formDecode s).map registerFromPairs

/-- Modelled from the spec: Fiber's `c.BodyParser` — reflection-based
binding of the body into the registration triple, choosing the decoder by
the request content type. -/
def bodyParserRegister (c : Ctx) : Option RegisterReq :=
  if c.contentType = "application/json" then jsonDecodeRegister c.body
  else if c.contentType = "application/x-www-form-urlencoded" then
    formDecodeRegister c.body
  else none

/-- The `POST /register` handler: binds the body via `BodyParser` and
confirms with the bound username; a decode failure is returned as an
error (its message is modelled, the framework chooses the text). -/
def registerHandler (c : Ctx) : HandlerResult :=
  match bodyParserRegister c with
  | some req => .ok ⟨200, "Register Success " ++ req.username⟩
  | none => .error "body parser failed"

/-- A registered route: method, full path, handler. -/
structure Route where
  method : String
  path : String
  handler : Ctx → HandlerResult

/-- Modelled from the spec: registering a GET handler on a group with the
given path adds a route at the group's path followed by the handler's
path. -/
def groupGet (basePath relPath : String) (h : Ctx → HandlerResult) : Route :=
  ⟨"GET", basePath ++ relPath, h⟩

/-- The shared `helloW` handler of `TestRouteGroup`. -/
def helloW : Ctx → HandlerResult :=
  fun _ => .ok ⟨200, "Hello World"⟩

/-- The routes registered by `TestRouteGroup`: `helloW` at `/hello` and
`/world` on the groups `/api` and `/web`. -/
def groupRoutes : List Route :=
  [groupGet "/api" "/hello" helloW, groupGet "/api" "/world" helloW,
   groupGet "/web" "/hello" helloW, groupGet "/web" "/world" helloW]

/-- Finds the first registered route with the given method and path. -/
def findRoute (method path : String) : List Route → Option Route
  | [] => none
  | r :: rs =>
    if r.method = method ∧ r.path = path then some r
    else findRoute method path rs

/-- Modelled from the spec: dispatch — run the matching route's handler
through the error-handling wrapper; `none` when no route matches. -/
def dispatch (method path : String) (rs : List Route) (c : Ctx) :
    Option Response :=
  (findRoute method path rs).map (fun r => runRoute r.handler c)

/-- The `/api` middleware of `main`: log a line, invoke the downstream
chain via `Next`, log a line, and return the downstream error unchanged.
The downstream chain is a function from the count of `Next` invocations
so far to its result and the updated count; the middleware's output is
its log lines, the returned result and the final count. -/
def apiMiddleware (next : Nat → HandlerResult × Nat) (calls : Nat) :
    List String × HandlerResult × Nat :=
  match next calls with
  | (res, calls2) =>
    (["This is middleware before processing request",
      "This is middleware after processing request"], res, calls2)

/-- The `GET /api/hello` handler of `main`. -/
def apiHelloHandler : Ctx → HandlerResult :=
  fun _ => .ok ⟨200, "Hello World !!!!!"⟩

/-- The `/api` middleware wrapped around the `GET /api/hello` handler,
starting with zero `Next` invocations; each `Next` call increments the
count. -/
def apiChain (c : Ctx) : List String × HandlerResult × Nat :=
  apiMiddleware (fun n => (apiHelloHandler c, n + 1)) 0

/-- An uploaded multipart file: its client-provided filename and its
content. -/
structure MultipartFile where
  filename : String
  content : String
deriving DecidableEq, Repr

/-- The `POST /upload` handler: obtain the multipart form file named
`file` (`formFile`, which may fail), save it under `./target/` plus its
filename (`saveFile`, which may fail), and confirm; either failure is
returned unchanged. The two fallible framework/filesystem operations are
passed in as arguments. -/
def uploadHandler (formFile : Except String MultipartFile)
    (saveFile : MultipartFile → String → Except String Unit) : HandlerResult :=
  match formFile with
  | .error e => .error e
  | .ok file =>
    match saveFile file ("./target/" ++ file.filename) with
    | .error e => .error e
    | .ok _ => .ok ⟨200, "Upload Success"⟩

end GoFiber

namespace GoFiber

/-- C1: a handler error is mapped by the configured error handler to a
500 response with body `"Error : "` followed by the message; in
particular `GET /err` yields status 500 and body `"Error : duar"`. -/
theorem err_route_maps_to_500 (h : Ctx → HandlerResult) (c : Ctx) (e : String)
    (he : h c = .error e) :
    runRoute h c = ⟨500, "Error : " ++ e⟩ ∧
    runRoute errHandler c = ⟨500, "Error : duar"⟩ := by
  constructor
  · simp [runRoute, he, errorHandler]
  · simp [runRoute, errHandler, errorHandler]

/-- Witness for C1 at the concrete `/err` handler and an empty context. -/
theorem err_route_maps_to_500_witness :
    runRoute errHandler ⟨[], [], [], [], "", ""⟩ = ⟨500, "Error : duar"⟩ :=
  (err_route_maps_to_500 errHandler ⟨[], [], [], [], "", ""⟩ "duar" rfl).2

/-- C2: `GET /hello` answers 200 with `"Hello "` followed by the `name`
query parameter when it is bound, and `"Hello Guest"` when it is not. -/
theorem hello_query_default (c : Ctx) (v : String) :
    (List.lookup "name" c.queryParams = some v →
      runRoute helloHandler c = ⟨200, "Hello " ++ v⟩) ∧
    (List.lookup "name" c.queryParams = none →
      runRoute helloHandler c = ⟨200, "Hello Guest"⟩) := by
  constructor
  · intro hv
    simp [runRoute, helloHandler, Ctx.query, hv]
  · intro hn
    simp [runRoute, helloHandler, Ctx.query, hn]

/-- Witness for C2: the bound case at `name=Dion` and the default case. -/
theorem hello_query_default_witness :
    runRoute helloHandler ⟨[("name", "Dion")], [], [], [], "", ""⟩
      = ⟨200, "Hello Dion"⟩ ∧
    runRoute helloHandler ⟨[], [], [], [], "", ""⟩ = ⟨200, "Hello Guest"⟩ :=
  ⟨(hello_query_default ⟨[("name", "Dion")], [], [], [], "", ""⟩ "Dion").1 rfl,
   (hello_query_default ⟨[], [], [], [], "", ""⟩ "Dion").2 rfl⟩

/-- C3: `GET /req` with header `firstname = F` and cookie `lastname = L`
answers 200 with body `"Hello " ++ F ++ " " ++ L`. -/
theorem req_echoes_header_and_cookie (c : Ctx) (F L : String)
    (hf : List.lookup "firstname" c.headers = some F)
    (hl : List.lookup "lastname" c.cookies = some L) :
    runRoute reqHandler c = ⟨200, "Hello " ++ F ++ " " ++ L⟩ := by
  simp [runRoute, reqHandler, Ctx.getHeader, Ctx.cookie, hf, hl]

/-- Witness for C3 at the test's concrete header and cookie. -/
theorem req_echoes_header_and_cookie_witness :
    runRoute reqHandler
      ⟨[], [("firstname", "Eko")], [("lastname", "Soegianto")], [], "", ""⟩
      = ⟨200, "Hello Eko Soegianto"⟩ :=
  req_echoes_header_and_cookie
    ⟨[], [("firstname", "Eko")], [("lastname", "Soegianto")], [], "", ""⟩
    "Eko" "Soegianto" rfl rfl

/-- C4: the pattern `/users/:userId/orders/:orderId` matches the path
segments `users / U / orders / O` for non-empty `U` and `O`, binding the
two parameters, and the handler then answers 200 with body
`"Order " ++ O ++ " from " ++ U`. -/
theorem orders_route_parameters (c : Ctx) (U O : String)
    (hU : U ≠ "") (hO : O ≠ "") :
    matchSegs ordersPattern ["users", U, "orders", O]
      = some [("userId", U), ("orderId", O)] ∧
    runRoute ordersHandler
        { c with params := [("userId", U), ("orderId", O)] }
      = ⟨200, "Order " ++ O ++ " from " ++ U⟩ := by
  constructor
  · have hp : ordersPattern
        = [.lit "users", .param "userId", .lit "orders", .param "orderId"] := by
      decide
    rw [hp]
    simp [matchSegs, hU, hO]
  · simp [runRoute, ordersHandler, Ctx.param, List.lookup]

/-- Witness for C4 at `GET /users/eko/orders/2`, with the path split into
segments by `splitPath`. -/
theorem orders_route_parameters_witness :
    splitPath "/users/eko/orders/2" = ["users", "eko", "orders", "2"] ∧
    matchSegs ordersPattern ["users", "eko", "orders", "2"]
      = some [("userId", "eko"), ("orderId", "2")] ∧
    runRoute ordersHandler
        ⟨[], [], [], [("userId", "eko"), ("orderId", "2")], "", ""⟩
      = ⟨200, "Order 2 from eko"⟩ := by
  refine ⟨by decide, ?_⟩
  exact orders_route_parameters ⟨[], [], [], [], "", ""⟩ "eko" "2"
    (by decide) (by decide)

/-- C5: `main` configures the server with prefork enabled and all three
timeouts equal to 5 seconds, and at startup it first prints
`"This is child process"` exactly when the process is a prefork child
(`"This is parent process"` otherwise) and only then listens. -/
theorem main_config_and_startup :
    mainConfig = { idleTimeout := 5, writeTimeout := 5, readTimeout := 5,
                   prefork := true } ∧
    ∀ b : Bool,
      mainStartup b
        = [.println (startupMessage b), .listen "localhost:3000"] ∧
      (startupMessage b = "This is child process" ↔ b = true) ∧
      (startupMessage b = "This is parent process" ↔ b = false) := by
  refine ⟨rfl, ?_⟩
  intro b
  cases b <;> simp [mainStartup, startupMessage]

/-- C6: `POST /register` binds the body under both content types —
whenever the body decodes as a flat JSON object (under content type
`application/json`) or as a form-urlencoded body (under content type
`application/x-www-form-urlencoded`) into the registration triple, the
response is 200 with body `"Register Success "` followed by the bound
username. -/
theorem register_binds_json_and_form (c1 c2 : Ctx) (r1 r2 : RegisterReq)
    (h1t : c1.contentType = "application/json")
    (h1 : jsonDecodeRegister c1.body = some r1)
    (h2t : c2.contentType = "application/x-www-form-urlencoded")
    (h2 : formDecodeRegister c2.body = some r2) :
    runRoute registerHandler c1 = ⟨200, "Register Success " ++ r1.username⟩ ∧
    runRoute registerHandler c2 = ⟨200, "Register Success " ++ r2.username⟩ := by
  constructor
  · simp [runRoute, registerHandler, bodyParserRegister, h1t, h1]
  · simp [runRoute, registerHandler, bodyParserRegister, h2t, h2]

/-- Witness for C6 at the test's JSON and form bodies. -/
theorem register_binds_json_and_form_witness :
    runRoute registerHandler
        ⟨[], [], [], [],
         "\x7b\"username\":\"Eric\",\"password\":\"rahasia\",\"name\":\"Eric Kunthady\"\x7d",
         "application/json"⟩
      = ⟨200, "Register Success Eric"⟩ ∧
    runRoute registerHandler
        ⟨[], [], [], [], "username=Eric&password=rahasia&name=Eric+Kunthady",
         "application/x-www-form-urlencoded"⟩
      = ⟨200, "Register Success Eric"⟩ :=
  register_binds_json_and_form
    ⟨[], [], [], [],
     "\x7b\"username\":\"Eric\",\"password\":\"rahasia\",\"name\":\"Eric Kunthady\"\x7d",
     "application/json"⟩
    ⟨[], [], [], [], "username=Eric&password=rahasia&name=Eric+Kunthady",
     "application/x-www-form-urlencoded"⟩
    ⟨"Eric", "rahasia", "Eric Kunthady"⟩ ⟨"Eric", "rahasia", "Eric Kunthady"⟩
    rfl (by decide) rfl (by decide)

/-- C7: a route registered on a group with path `P` at path `Q` lives at
the concatenated path `P ++ Q` and is found there by dispatch; in
particular all four routes of `TestRouteGroup` — `GET /api/hello`,
`GET /api/world`, `GET /web/hello`, `GET /web/world` — answer 200 with
body `"Hello World"`. -/
theorem group_prefixes_concatenate (P Q : String) (h : Ctx → HandlerResult)
    (c : Ctx) :
    (groupGet P Q h).path = P ++ Q ∧
    dispatch "GET" (P ++ Q) [groupGet P Q h] c = some (runRoute h c) ∧
    dispatch "GET" "/api/hello" groupRoutes c = some ⟨200, "Hello World"⟩ ∧
    dispatch "GET" "/api/world" groupRoutes c = some ⟨200, "Hello World"⟩ ∧
    dispatch "GET" "/web/hello" groupRoutes c = some ⟨200, "Hello World"⟩ ∧
    dispatch "GET" "/web/world" groupRoutes c = some ⟨200, "Hello World"⟩ := by
  refine ⟨rfl, ?_, rfl, rfl, rfl, rfl⟩
  simp [dispatch, findRoute, groupGet]

/-- C8: the `/api` middleware returns exactly what the downstream chain
returns (result and invocation count both unchanged), and around the
`GET /api/hello` handler it invokes the downstream exactly once, so the
response is precisely the handler's: 200 with body
`"Hello World !!!!!"`. -/
theorem api_middleware_transparent (next : Nat → HandlerResult × Nat)
    (n : Nat) (c : Ctx) :
    (apiMiddleware next n).2.1 = (next n).1 ∧
    (apiMiddleware next n).2.2 = (next n).2 ∧
    apiChain c = (["This is middleware before processing request",
                   "This is middleware after processing request"],
                  .ok ⟨200, "Hello World !!!!!"⟩, 1) ∧
    runRoute apiHelloHandler c = ⟨200, "Hello World !!!!!"⟩ := by
  refine ⟨?_, ?_, rfl, rfl⟩ <;> simp [apiMiddleware]

/-- C9: the `POST /login` response does not depend on the password —
whenever two bodies decode to login credentials with the same username,
the resulting responses are identical, namely 200 with body `"Hi "`
followed by the username. -/
theorem login_independent_of_password (c1 c2 : Ctx) (r1 r2 : LoginReq)
    (h1 : jsonDecodeLogin c1.body = some r1)
    (h2 : jsonDecodeLogin c2.body = some r2)
    (hu : r1.username = r2.username) :
    runRoute loginHandler c1 = runRoute loginHandler c2 ∧
    runRoute loginHandler c1 = ⟨200, "Hi " ++ r1.username⟩ := by
  constructor
  · simp [runRoute, loginHandler, h1, h2, hu]
  · simp [runRoute, loginHandler, h1]

/-- Witness for C9 at two bodies with the same username and different
passwords. -/
theorem login_independent_of_password_witness :
    runRoute loginHandler
        ⟨[], [], [], [], "\x7b\"username\":\"Eric\",\"password\":\"rahasia\"\x7d", ""⟩
      = runRoute loginHandler
        ⟨[], [], [], [], "\x7b\"username\":\"Eric\",\"password\":\"other\"\x7d", ""⟩ ∧
    runRoute loginHandler
        ⟨[], [], [], [], "\x7b\"username\":\"Eric\",\"password\":\"rahasia\"\x7d", ""⟩
      = ⟨200, "Hi Eric"⟩ :=
  login_independent_of_password
    ⟨[], [], [], [], "\x7b\"username\":\"Eric\",\"password\":\"rahasia\"\x7d", ""⟩
    ⟨[], [], [], [], "\x7b\"username\":\"Eric\",\"password\":\"other\"\x7d", ""⟩
    ⟨"Eric", "rahasia"⟩ ⟨"Eric", "other"⟩ (by decide) (by decide) rfl

/-- C10: `POST /upload` answers 200 `"Upload Success"` exactly when both
obtaining the multipart file named `file` and saving it under `./target/`
succeed; either failure is returned as an error unchanged (to be handled
by the configured error handler). -/
theorem upload_success_iff (ff : Except String MultipartFile)
    (save : MultipartFile → String → Except String Unit) :
    (uploadHandler ff save = .ok ⟨200, "Upload Success"⟩ ↔
      ∃ f, ff = .ok f ∧ save f ("./target/" ++ f.filename) = .ok ()) ∧
    (∀ e, ff = .error e → uploadHandler ff save = .error e) ∧
    (∀ f e, ff = .ok f → save f ("./target/" ++ f.filename) = .error e →
      uploadHandler ff save = .error e) := by
  refine ⟨?_, ?_, ?_⟩
  · cases ff with
    | error e => simp [uploadHandler]
    | ok f =>
      cases hs : save f ("./target/" ++ f.filename) with
      | error e => simp [uploadHandler, hs]
      | ok u => cases u; simp [uploadHandler, hs]
  · intro e he
    rw [he]
    simp [uploadHandler]
  · intro f e hf hs
    rw [hf]
    simp [uploadHandler, hs]

/-- Witness for C10: success when both steps succeed, error propagation
when retrieval fails. -/
theorem upload_success_iff_witness :
    uploadHandler
        (.ok ⟨"contoh.txt", "this is sample text file for upload"⟩)
        (fun _ _ => .ok ())
      = .ok ⟨200, "Upload Success"⟩ ∧
    uploadHandler (.error "no multipart file") (fun _ _ => .ok ())
      = .error "no multipart file" :=
  ⟨(upload_success_iff
      (.ok ⟨"contoh.txt", "this is sample text file for upload"⟩)
      (fun _ _ => .ok ())).1.mpr
      ⟨⟨"contoh.txt", "this is sample text file for upload"⟩, rfl, rfl⟩,
   (upload_success_iff (.error "no multipart file")
      (fun _ _ => .ok ())).2.1 "no multipart file" rfl⟩

end GoFiber
